import Mathlib

/-! mautrix-discord: entity registry and state reconciliation.

A shallow embedding of `bridge/user.go` and `guildportal.go`.  Go maps are
association lists with unique keys (`GoMap`), pointers to users are indices
into a heap, and every call to an external collaborator (homeserver, store,
gateway) is recorded in a trace, its response being an input of the model.
-/

namespace MautrixDiscord

/-! ## Go maps -/

/-- A Go `map[K]V`: an association list, read by first match. -/
abbrev GoMap (κ : Type) (α : Type) := List (κ × α)

namespace GoMap

variable {κ α : Type} [DecidableEq κ]

/-- The Go expression `m[k]` with its `ok` flag: `none` when absent. -/
def get : GoMap κ α → κ → Option α
  | [], _ => none
  | (k', v) :: t, k => if k' = k then some v else get t k

/-- The Go statement `m[k] = v`. -/
def set : GoMap κ α → κ → α → GoMap κ α
  | [], k, v => [(k, v)]
  | (k', v') :: t, k, v => if k' = k then (k, v) :: t else (k', v') :: set t k v

/-- The keys of the map. -/
def keys (m : GoMap κ α) : List κ := m.map Prod.fst

end GoMap

/-! ## Direct chat list (`bridge/user.go`) -/

/-- The `m.direct` account data: `map[id.UserID][]id.RoomID`. -/
abbrev ChatMap := GoMap String (List String)

/-- The fields of `database.Portal` read by `getDirectChats`. -/
structure Portal where
  /-- `portal.Key.Receiver` -/
  Receiver : String
  /-- `portal.MXID` -/
  MXID : String
  deriving DecidableEq, Repr

/-- The custom intent of a double puppet, as far as `updateDirectChats` talks to
it: what `GetAccountData("m.direct")` answers. -/
structure Intent where
  /-- the answer to `GetAccountData("m.direct")` -/
  getAccountData : Except String ChatMap
  /-- the error of `EnsureJoined(roomID, IgnoreCache)`, `none` on success -/
  EnsureJoined : Option String

/-- A puppet; `CustomIntent()` is nil when no double puppet is bound. -/
structure Puppet where
  CustomIntent : Option Intent

/-- What `updateDirectChats` reads of the bridge. -/
structure DirectChatBridge where
  /-- `Config.Bridge.SyncDirectChatList` -/
  SyncDirectChatList : Bool
  /-- `Config.Homeserver.Asmux` -/
  Asmux : Bool
  /-- `GetPuppetByMXID` -/
  GetPuppetByMXID : String → Option Puppet
  /-- `ParsePuppetMXID`: the ghost's remote ID, `none` when the owner is not a ghost -/
  ParsePuppetMXID : String → Option String
  /-- `FormatPuppetMXID` -/
  FormatPuppetMXID : String → String
  /-- `db.Portal.FindPrivateChats` -/
  FindPrivateChats : String → List Portal

/-- The HTTP method of the update. -/
inductive Method where
  | PATCH
  | PUT
  deriving DecidableEq, Repr

/-- The requests `updateDirectChats` sends. -/
inductive DirectChatCall where
  /-- the asmux `dms` endpoint -/
  | asmuxRequest (method : Method) (chats : ChatMap)
  | getAccountData
  | setAccountData (chats : ChatMap)
  deriving DecidableEq, Repr

/-- The function `User.getDirectChats` for the user with remote ID `uid`. -/
def getDirectChats (br : DirectChatBridge) (uid : String) : ChatMap :=
  (br.FindPrivateChats uid).foldl
    (fun chats portal =>
      if portal.MXID ≠ "" then
        chats.set (br.FormatPuppetMXID portal.Receiver) [portal.MXID]
      else chats)
    []

/-- The loop of `updateDirectChats` over the existing `m.direct` list: one step
for the entry `(userID, rooms)`. -/
def mergeStep (br : DirectChatBridge) (method : Method) (chats : ChatMap)
    (entry : String × List String) : ChatMap :=
  if (br.ParsePuppetMXID entry.1).isNone then
    -- This is not a ghost user, include it in the new list
    chats.set entry.1 entry.2
  else if (chats.get entry.1).isNone ∧ method = Method.PATCH then
    -- This is a ghost user, but we are not replacing the whole list
    chats.set entry.1 entry.2
  else chats

/-- The function `User.updateDirectChats` for the user with Matrix ID `mxid` and remote ID
`uid`; `chats = none` is the nil map.  Returns the requests sent, in order. -/
def updateDirectChats (br : DirectChatBridge) (mxid uid : String)
    (chats : Option ChatMap) : List DirectChatCall :=
  if !br.SyncDirectChatList then []
  else
    match br.GetPuppetByMXID mxid with
    | none => []
    | some puppet =>
      match puppet.CustomIntent with
      | none => []
      | some intent =>
        let (chats, method) :=
          match chats with
          | none => (getDirectChats br uid, Method.PUT)
          | some c => (c, Method.PATCH)
        if br.Asmux then
          [DirectChatCall.asmuxRequest method chats]
        else
          match intent.getAccountData with
          | .error _ => [DirectChatCall.getAccountData]
          | .ok existingChats =>
            [DirectChatCall.getAccountData,
             DirectChatCall.setAccountData
               (existingChats.foldl (mergeStep br method) chats)]

/-- The ghost prefix of the example bridge. -/
def exGhostTag : String := "ghost"

/-- An example bridge: ghosts are the IDs starting with `ghost`, the remote list
is `{fg1: [r1], ghost1: [r2]}` and the store has one private portal, to remote
user `1` in room `r3`. -/
def exBridge : DirectChatBridge where
  SyncDirectChatList := true
  Asmux := false
  GetPuppetByMXID := fun _ =>
    some ⟨some ⟨.ok [("fg1", ["r1"]), ("ghost1", ["r2"])], none⟩⟩
  ParsePuppetMXID := fun s =>
    if exGhostTag.data.isPrefixOf s.data then some (String.mk (s.data.drop 5)) else none
  FormatPuppetMXID := fun r => exGhostTag ++ r
  FindPrivateChats := fun _ => [⟨"1", "r3"⟩]

/-! ## Guild cache of a user (`bridge/user.go`) -/

namespace Database

/-- The fields of `database.Guild` (the per-user guild record) that
`bridge/user.go` reads and writes. -/
structure Guild where
  DiscordID : String
  GuildID : String
  GuildName : String
  Bridge : Bool
  deriving DecidableEq, Repr

/-- The record `db.Guild.New()` hands out: every field is the zero value. -/
def Guild.New : Guild := { DiscordID := "", GuildID := "", GuildName := "", Bridge := false }

/-- The guild table of the store. -/
abbrev GuildStore := List Guild

/-- Modelled from the spec: `Guild.GetAll(discordID)` of the store, which is not
among the sources, returns the stored guilds of that user. -/
def GuildStore.GetAll (db : GuildStore) (discordID : String) : List Guild :=
  db.filter (fun g => g.DiscordID = discordID)

/-- Modelled from the spec: `Guild.Prune(discordID, keep)` of the store, which is
not among the sources, keeps of that user only the guilds whose ID is in `keep`
(the records of other users are not touched). -/
def GuildStore.Prune (db : GuildStore) (discordID : String) (keep : List String) : GuildStore :=
  db.filter (fun g => g.DiscordID ≠ discordID ∨ g.GuildID ∈ keep)

/-- Modelled from the spec: `guild.Upsert()` of the store, which is not among the
sources, writes the record under its key `(DiscordID, GuildID)`. -/
def GuildStore.Upsert : GuildStore → Guild → GuildStore
  | [], g => [g]
  | h :: t, g =>
    if h.DiscordID = g.DiscordID ∧ h.GuildID = g.GuildID then g :: t
    else h :: GuildStore.Upsert t g

end Database

/-- The part of a `discordgo.Session` that `Connect` sets up: the token it was
made with, the handlers added (oldest first) and `Identify.Presence.Status`. -/
structure Session where
  Token : String
  handlers : List String
  Status : String
  deriving DecidableEq, Repr

/-- The fields of `User` (with the embedded `database.User`) that the modelled
methods touch. -/
structure User where
  /-- remote account ID -/
  ID : String
  MXID : String
  ManagementRoom : String
  Token : String
  /-- the guild cache `guildID → *database.Guild` -/
  guilds : GoMap String Database.Guild
  /-- the live session handle, `none` for nil -/
  Session : Option Session := none
  deriving DecidableEq, Repr

/-- The fields of `discordgo.Guild` the bridge reads. -/
structure DiscordGuild where
  ID : String
  Name : String
  Icon : String
  Unavailable : Bool
  deriving DecidableEq, Repr

/-- The fields of `discordgo.Ready` the bridge reads: `r.User.ID` and `r.Guilds`. -/
structure Ready where
  UserID : String
  Guilds : List DiscordGuild
  deriving DecidableEq, Repr

/-- A user together with the store: the guild table and the user rows written by
`Update()`, oldest first. -/
structure UserWorld where
  user : User
  guildStore : Database.GuildStore
  userUpdates : List User
  deriving DecidableEq, Repr

/-- The function `User.loadGuilds`: the cache is rebuilt from the stored guilds of `u.ID`. -/
def loadGuilds (u : User) (db : Database.GuildStore) : User :=
  { u with guilds := (db.GetAll u.ID).foldl (fun m guild => m.set guild.GuildID guild) [] }

/-- One pass of the loop of `readyHandler` over `r.Guilds`; the state is the
cache and the list `current`. -/
def readyStep (uid : String) (st : GoMap String Database.Guild × List String)
    (guild : DiscordGuild) : GoMap String Database.Guild × List String :=
  let current := st.2 ++ [guild.ID]
  match st.1.get guild.ID with
  | some val =>
    let bridge := val.Bridge
    let val := { val with Bridge := bridge }
    let val := if !guild.Unavailable then { val with GuildName := guild.Name } else val
    (st.1.set guild.ID val, current)
  | none =>
    let g := { Database.Guild.New with DiscordID := uid, GuildID := guild.ID }
    let g := if !guild.Unavailable then { g with GuildName := guild.Name } else g
    (st.1.set guild.ID g, current)

/-- The function `User.readyHandler`. -/
def readyHandler (w : UserWorld) (r : Ready) : UserWorld :=
  let u := { w.user with ID := r.UserID }
  let st := r.Guilds.foldl (readyStep u.ID) (u.guilds, [])
  let u := { u with guilds := st.1 }
  let db := w.guildStore.Prune u.ID st.2
  let u := loadGuilds u db
  { user := u, guildStore := db, userUpdates := w.userUpdates ++ [u] }

/-- The function `User.guildCreateHandler` for the event guild `g`. -/
def guildCreateHandler (w : UserWorld) (g : DiscordGuild) : UserWorld :=
  match w.user.guilds.get g.ID with
  | some guild =>
    let guild := { guild with GuildName := g.Name }
    { w with user := { w.user with guilds := w.user.guilds.set g.ID guild },
             guildStore := w.guildStore.Upsert guild }
  | none =>
    let guild := { Database.Guild.New with
      DiscordID := w.user.ID, GuildID := g.ID, GuildName := g.Name }
    { w with user := { w.user with guilds := w.user.guilds.set g.ID guild },
             guildStore := w.guildStore.Upsert guild }

/-! ## Bridging filter and message delete (`bridge/user.go`) -/

/-- The function `User.bridgeMessage`. -/
def bridgeMessage (u : User) (guildID : String) : Bool :=
  if guildID = "" then true
  else
    match u.guilds.get guildID with
    | some guild => if guild.Bridge then true else false
    | none => false

/-- The type `database.PortalKey`. -/
structure PortalKey where
  ChannelID : String
  Receiver : String
  deriving DecidableEq, Repr

/-- The fields of `discordgo.MessageDelete` the handler reads. -/
structure MessageDelete where
  ID : String
  ChannelID : String
  GuildID : String
  deriving DecidableEq, Repr

/-- The type `portalDiscordMessage`: the event and the Matrix ID of the user whose
session delivered it. -/
structure PortalDiscordMessage where
  msg : MessageDelete
  user : String
  deriving DecidableEq, Repr

/-- The `discordMessages` queues of the portals, by portal key; a portal that
`GetPortalByID` has not handed out yet has no entry, and its queue is empty. -/
abbrev PortalQueues := GoMap PortalKey (List PortalDiscordMessage)

/-- The content of the queue of the portal `key`. -/
def PortalQueues.queue (q : PortalQueues) (key : PortalKey) : List PortalDiscordMessage :=
  (GoMap.get q key).getD []

/-- The function `User.messageDeleteHandler`: returns the user and the queues afterwards. -/
def messageDeleteHandler (u : User) (q : PortalQueues) (m : MessageDelete) :
    User × PortalQueues :=
  if !bridgeMessage u m.GuildID then (u, q)
  else
    let key : PortalKey := { ChannelID := m.ChannelID, Receiver := u.ID }
    let msg : PortalDiscordMessage := { msg := m, user := u.MXID }
    (u, GoMap.set q key (PortalQueues.queue q key ++ [msg]))

/-! ## Invites (`bridge/user.go`) -/

/-- The type `mautrix.RespError`. -/
structure RespError where
  ErrCode : String
  Err : String
  deriving DecidableEq, Repr

/-- A Go `error` as `ensureInvited` inspects it: `errors.As` finds a
`mautrix.HTTPError` (whose `RespError` may be nil) or it does not. -/
inductive GoError where
  | HTTPError (RespError : Option RespError)
  | other (text : String)
  deriving DecidableEq, Repr

/-- The function `strings.Contains`. -/
def stringsContains (s substr : String) : Bool :=
  decide (substr.data <:+: s.data)

/-- The type `event.Membership`. -/
inductive Membership where
  | join
  | invite
  | leave
  | ban
  | knock
  deriving DecidableEq, Repr

/-- The bridge's state store: membership by `(roomID, userID)`. -/
abbrev StateStore := GoMap (String × String) Membership

/-- The requests `ensureInvited` sends. -/
inductive InviteCall where
  /-- the invite: room, state key, `IsDirect`, whether `fi.mau.will_auto_accept` is set -/
  | SendStateEvent (roomID stateKey : String) (isDirect willAutoAccept : Bool)
  /-- `EnsureJoined` through the custom intent, bypassing its cache -/
  | EnsureJoined (roomID : String)
  deriving DecidableEq, Repr

/-- What `ensureInvited` gets from its collaborators: the double puppet of the
user (`GetPuppetByCustomMXID`) and the error of the invite. -/
structure InviteBridge where
  customPuppet : Option Puppet
  /-- the error of `intent.SendStateEvent`, `none` on success -/
  SendStateEvent : Option GoError

/-- The test of the first branch: the invite failed with an HTTP error whose
response error text contains "is already in the room". -/
def alreadyInRoom : Option GoError → Bool
  | some (GoError.HTTPError (some resp)) => stringsContains resp.Err "is already in the room"
  | _ => false

/-- The function `User.ensureInvited`: the result, the state store afterwards and the
requests sent. -/
def ensureInvited (br : InviteBridge) (u : User) (store : StateStore)
    (roomID : String) (isDirect : Bool) : Bool × StateStore × List InviteCall :=
  let custom : Option Intent :=
    match br.customPuppet with
    | some customPuppet => customPuppet.CustomIntent
    | none => none
  let invite := InviteCall.SendStateEvent roomID u.MXID isDirect custom.isSome
  let first : Bool × StateStore :=
    if alreadyInRoom br.SendStateEvent then
      (true, GoMap.set store (roomID, u.MXID) Membership.join)
    else if br.SendStateEvent.isSome then (false, store)
    else (true, store)
  match custom with
  | some intent =>
    match intent.EnsureJoined with
    | some _ => (false, first.2, [invite, InviteCall.EnsureJoined roomID])
    | none => (true, first.2, [invite, InviteCall.EnsureJoined roomID])
  | none => (first.1, first.2, [invite])

/-! ## Management rooms (`bridge/user.go`) -/

/-- A `*User`. -/
abbrev UserPtr := Nat

/-- The users behind their pointers, the index `bridge.managementRooms` and the
user rows written by `Update()`, oldest first, each with the pointer of the
user it was called on. -/
structure ManagementState where
  users : UserPtr → User
  managementRooms : GoMap String UserPtr
  updates : List (UserPtr × User)

/-- The assignment `p.ManagementRoom = roomID`. -/
def setRoomField (users : UserPtr → User) (p : UserPtr) (roomID : String) : UserPtr → User :=
  fun q => if q = p then { users p with ManagementRoom := roomID } else users q

/-- The function `User.SetManagementRoom` on the user `u`. -/
def SetManagementRoom (st : ManagementState) (u : UserPtr) (roomID : String) :
    ManagementState :=
  let st :=
    match st.managementRooms.get roomID with
    | some existing =>
      let users := setRoomField st.users existing ""
      { st with users := users, updates := st.updates ++ [(existing, users existing)] }
    | none => st
  let users := setRoomField st.users u roomID
  { users := users,
    managementRooms := st.managementRooms.set (users u).ManagementRoom u,
    updates := st.updates ++ [(u, users u)] }

/-! ## Guilds and their spaces (`guildportal.go`) -/

/-- The type `id.ContentURI`. -/
structure ContentURI where
  Homeserver : String
  FileID : String
  deriving DecidableEq, Repr

/-- The function `ContentURI.IsEmpty`. -/
def ContentURI.IsEmpty (uri : ContentURI) : Bool :=
  uri.Homeserver = "" || uri.FileID = ""

/-- The zero value `id.ContentURI{}`. -/
def ContentURI.zero : ContentURI := { Homeserver := "", FileID := "" }

/-- The fields of `Guild` (with the embedded `database.Guild` of the main
package) that the modelled methods touch. -/
structure Guild where
  ID : String
  Name : String
  NameSet : Bool
  Avatar : String
  AvatarURL : ContentURI
  AvatarSet : Bool
  MXID : String
  deriving DecidableEq, Repr

/-- The request of `Bot.CreateRoom`: name, the types of the initial state
events with their state keys, and the creation content. -/
structure ReqCreateRoom where
  Name : String
  InitialState : List (String × String)
  Federate : Bool
  deriving DecidableEq, Repr

/-- What a guild method does outside the guild entity, in order. -/
inductive Effect where
  | SetRoomName (roomID name : String)
  | uploadAvatar (url : String)
  | SetRoomAvatar (roomID : String) (url : ContentURI)
  | SendStateEvent (roomID eventType stateKey : String)
  | CreateRoom (req : ReqCreateRoom)
  /-- `user.ensureInvited(nil, roomID, false)` -/
  | ensureInvited (user roomID : String)
  /-- `guild.Update()`: the row written to the store -/
  | Update (row : Guild)
  deriving DecidableEq, Repr

/-- Whether the effect is a room-creation request. -/
def Effect.isCreateRoom : Effect → Bool
  | Effect.CreateRoom _ => true
  | _ => false

/-- The answers of the homeserver during one call of a guild method: the
error of each request (`none` on success) and what it returns. -/
structure Bot where
  SetRoomName : Option String
  /-- `uploadAvatar` returns a URI and an error -/
  uploadAvatar : ContentURI × Option String
  SetRoomAvatar : Option String
  /-- `CreateRoom` returns the room ID or an error -/
  CreateRoom : Except String String
  deriving Repr

/-- The function `discordgo.EndpointGuildIcon`. -/
def EndpointGuildIcon (gID hash : String) : String :=
  "https://cdn.discordapp.com/icons/" ++ gID ++ "/" ++ hash ++ ".png"

/-- The function `Guild.UpdateName`: the result, the guild afterwards, the effects. -/
def Guild.UpdateName (bot : Bot) (guild : Guild) (name : String) :
    Bool × Guild × List Effect :=
  if guild.Name = name ∧ guild.NameSet = true then (false, guild, [])
  else
    let guild := { guild with Name := name, NameSet := false }
    if guild.MXID ≠ "" then
      match bot.SetRoomName with
      | some _ => (true, guild, [Effect.SetRoomName guild.MXID guild.Name])
      | none =>
        (true, { guild with NameSet := true }, [Effect.SetRoomName guild.MXID guild.Name])
    else (true, guild, [])

/-- The function `Guild.UpdateAvatar`: the result, the guild afterwards, the effects. -/
def Guild.UpdateAvatar (bot : Bot) (guild : Guild) (iconID : String) :
    Bool × Guild × List Effect :=
  if guild.Avatar = iconID ∧ guild.AvatarSet = true then (false, guild, [])
  else
    let guild := { guild with AvatarSet := false, Avatar := iconID, AvatarURL := ContentURI.zero }
    let upload : List Effect :=
      if guild.Avatar ≠ "" then [Effect.uploadAvatar (EndpointGuildIcon guild.ID iconID)] else []
    let guild :=
      if guild.Avatar ≠ "" then { guild with AvatarURL := bot.uploadAvatar.1 } else guild
    if guild.Avatar ≠ "" ∧ bot.uploadAvatar.2.isSome then (true, guild, upload)
    else if guild.MXID ≠ "" then
      match bot.SetRoomAvatar with
      | some _ => (true, guild, upload ++ [Effect.SetRoomAvatar guild.MXID guild.AvatarURL])
      | none =>
        (true, { guild with AvatarSet := true },
          upload ++ [Effect.SetRoomAvatar guild.MXID guild.AvatarURL])
    else (true, guild, upload)

/-- The state key of `Guild.getBridgeInfo`. -/
def Guild.bridgeInfoStateKey (guild : Guild) : String :=
  "fi.mau.discord://discord/" ++ guild.ID

/-- The function `Guild.UpdateBridgeInfo`: the two state events, when the room exists. -/
def Guild.UpdateBridgeInfo (guild : Guild) : List Effect :=
  if guild.MXID.length = 0 then []
  else
    [Effect.SendStateEvent guild.MXID "m.bridge" guild.bridgeInfoStateKey,
     Effect.SendStateEvent guild.MXID "uk.half-shot.bridge" guild.bridgeInfoStateKey]

/-- The function `Guild.UpdateInfo`: the guild afterwards and the effects. -/
def Guild.UpdateInfo (bot : Bot) (guild : Guild) (meta : DiscordGuild) : Guild × List Effect :=
  if meta.Unavailable then (guild, [])
  else
    let r1 := guild.UpdateName bot meta.Name
    let r2 := r1.2.1.UpdateAvatar bot meta.Icon
    let changed := r2.1 || (r1.1 || false)
    if changed then
      (r2.2.1, r1.2.2 ++ r2.2.2 ++ r2.2.1.UpdateBridgeInfo ++ [Effect.Update r2.2.1])
    else (r2.2.1, r1.2.2 ++ r2.2.2)

/-- A guild entity with the index `bridge.guildsByMXID` (room ID to guild ID)
and the effects so far. -/
structure GuildWorld where
  guild : Guild
  guildsByMXID : GoMap String String
  effects : List Effect
  deriving DecidableEq, Repr

/-- One call of `CreateMatrixRoom`: the answers of the homeserver during the
call, the calling user and the guild data passed. -/
structure CreateCall where
  bot : Bot
  user : String
  meta : DiscordGuild

/-- The function `Guild.CreateMatrixRoom` with `Config.Bridge.FederateRooms = federate`: the
error returned (`none` for nil) and the world afterwards.  The body runs under
`roomCreateLock`, so the calls for one guild run one after another. -/
def Guild.CreateMatrixRoom (federate : Bool) (w : GuildWorld) (c : CreateCall) :
    Option String × GuildWorld :=
  if w.guild.MXID ≠ "" then (none, w)
  else
    let info := w.guild.UpdateInfo c.bot c.meta
    let guild := info.1
    let key := guild.bridgeInfoStateKey
    let initialState : List (String × String) :=
      [("m.bridge", key), ("uk.half-shot.bridge", key)]
        ++ (if !guild.AvatarURL.IsEmpty then [("m.room.avatar", "")] else [])
    let req : ReqCreateRoom :=
      { Name := guild.Name, InitialState := initialState, Federate := federate }
    match c.bot.CreateRoom with
    | .error err =>
      (some err,
        { w with guild := guild, effects := w.effects ++ info.2 ++ [Effect.CreateRoom req] })
    | .ok roomID =>
      let guild :=
        { guild with MXID := roomID, NameSet := true, AvatarSet := !guild.AvatarURL.IsEmpty }
      (none,
        { guild := guild,
          guildsByMXID := w.guildsByMXID.set guild.MXID guild.ID,
          effects := w.effects ++ info.2 ++
            [Effect.CreateRoom req, Effect.Update guild,
             Effect.ensureInvited c.user guild.MXID] })

/-- The worlds after each of the calls `cs` of `CreateMatrixRoom`, run one
after another from `w`. -/
def createRun (federate : Bool) : GuildWorld → List CreateCall → List GuildWorld
  | _, [] => []
  | w, c :: cs =>
    let w1 := (Guild.CreateMatrixRoom federate w c).2
    w1 :: createRun federate w1 cs

/-- The number of room-creation requests among the effects. -/
def countCreateRoom (effects : List Effect) : Nat :=
  (effects.filter Effect.isCreateRoom).length

/-! ## Guild registry (`guildportal.go`) -/

/-- A `*Guild`: the index of the entity among the entities made so far. -/
abbrev GuildPtr := Nat

/-- The record `DB.Guild.New()` hands out: every field is the zero value. -/
def Guild.New : Guild :=
  { ID := "", Name := "", NameSet := false, Avatar := "", AvatarURL := ContentURI.zero,
    AvatarSet := false, MXID := "" }

/-- The guild entities made by `NewGuild` (a pointer is an index into `guilds`),
the two indexes of the bridge and the guild table of the store. -/
structure GuildRegistry where
  guilds : List Guild
  guildsByID : GoMap String GuildPtr
  guildsByMXID : GoMap String GuildPtr
  store : List Guild
  deriving DecidableEq, Repr

/-- Modelled from the spec: `DB.Guild.GetByID(id)` of the store, which is not
among the sources, reads the stored record with that ID, nil when there is none. -/
def GuildRegistry.GetByID (br : GuildRegistry) (id : String) : Option Guild :=
  br.store.find? (fun g => decide (g.ID = id))

/-- Modelled from the spec: `dbGuild.Insert()` of the store, which is not among
the sources, adds the record to the guild table. -/
def GuildRegistry.Insert (br : GuildRegistry) (dbGuild : Guild) : GuildRegistry :=
  { br with store := br.store ++ [dbGuild] }

/-- The function `DiscordBridge.loadGuild`: the guild returned (`none` for nil)
and the registry afterwards. -/
def loadGuild (br : GuildRegistry) (dbGuild : Option Guild) (id : String)
    (createIfNotExist : Bool) : Option GuildPtr × GuildRegistry :=
  let loaded : Option (Guild × GuildRegistry) :=
    match dbGuild with
    | some g => some (g, br)
    | none =>
      if id = "" ∨ createIfNotExist = false then none
      else
        let g := { Guild.New with ID := id }
        some (g, br.Insert g)
  match loaded with
  | none => (none, br)
  | some (g, br) =>
    let guild : GuildPtr := br.guilds.length
    let br := { br with guilds := br.guilds ++ [g], guildsByID := br.guildsByID.set g.ID guild }
    let br :=
      if g.MXID ≠ "" then { br with guildsByMXID := br.guildsByMXID.set g.MXID guild } else br
    (some guild, br)

/-- The function `DiscordBridge.GetGuildByID`; the body runs under `guildsLock`. -/
def GetGuildByID (br : GuildRegistry) (id : String) (createIfNotExist : Bool) :
    Option GuildPtr × GuildRegistry :=
  match br.guildsByID.get id with
  | some guild => (some guild, br)
  | none => loadGuild br (br.GetByID id) id createIfNotExist

/-! ## Sessions (`bridge/user.go`) -/

/-- The error `ErrNotConnected`. -/
def ErrNotConnected : String := "not connected"

/-- The error `ErrNotLoggedIn`. -/
def ErrNotLoggedIn : String := "not logged in"

/-- What `Logout` and `Connect` do outside the user, in order. -/
inductive SessionCall where
  /-- `puppet.SwitchCustomMXID(accessToken, mxid)` -/
  | SwitchCustomMXID (accessToken mxid : String)
  /-- `Session.Close()` on the session given -/
  | Close (session : Session)
  /-- `u.Update()`: the row written to the store -/
  | Update (row : User)
  /-- `discordgo.New(token)` -/
  | New (token : String)
  /-- `Session.Open()` on the session given -/
  | Open (session : Session)
  deriving DecidableEq, Repr

/-- What `Logout` gets from its collaborators: the `CustomMXID` of the puppet
`GetPuppetByID(u.ID)` and the errors of the calls (`none` on success). -/
structure LogoutBridge where
  CustomMXID : String
  SwitchCustomMXID : Option String
  Close : Option String
  deriving DecidableEq, Repr

/-- The function `User.Logout`: the error returned (`none` for nil), the user
afterwards and the calls made. -/
def Logout (br : LogoutBridge) (u : User) : Option String × User × List SessionCall :=
  match u.Session with
  | none => (some ErrNotLoggedIn, u, [])
  | some session =>
    let switch : List SessionCall :=
      if br.CustomMXID ≠ "" then [SessionCall.SwitchCustomMXID "" ""] else []
    match br.Close with
    | some err => (some err, u, switch ++ [SessionCall.Close session])
    | none =>
      let u := { u with Session := none }
      let u := { u with Token := "" }
      (none, u, switch ++ [SessionCall.Close session, SessionCall.Update u])

/-- The function `User.Connected`. -/
def Connected (u : User) : Bool := u.Session.isSome

/-- What `Connect` gets from the gateway library: the errors of
`discordgo.New` and of `Session.Open` (`none` on success). -/
structure Gateway where
  New : Option String
  Open : Option String
  deriving DecidableEq, Repr

/-- The handlers `Connect` adds to the session, in order. -/
def connectHandlers : List String :=
  ["readyHandler", "connectedHandler", "disconnectedHandler",
   "guildCreateHandler", "guildDeleteHandler", "guildUpdateHandler",
   "channelCreateHandler", "channelDeleteHandler", "channelPinsUpdateHandler",
   "channelUpdateHandler",
   "messageCreateHandler", "messageDeleteHandler", "messageUpdateHandler",
   "reactionAddHandler", "reactionRemoveHandler"]

/-- The function `User.Connect`: the error returned (`none` for nil), the user
afterwards and the calls made. -/
def Connect (gw : Gateway) (u : User) : Option String × User × List SessionCall :=
  if u.Token = "" then (some ErrNotLoggedIn, u, [])
  else
    match gw.New with
    | some err => (some err, u, [SessionCall.New u.Token])
    | none =>
      let session : Session := { Token := u.Token, handlers := [], Status := "" }
      let u := { u with Session := some session }
      let session := { session with handlers := session.handlers ++ connectHandlers }
      let session := { session with Status := "online" }
      let u := { u with Session := some session }
      (gw.Open, u, [SessionCall.New u.Token, SessionCall.Open session])

/-! ## Example inputs -/

/-- A user who has just logged in: no remote ID yet, no cached guild. -/
def exFreshUser : User :=
  { ID := "", MXID := "@u:example.org", ManagementRoom := "", Token := "token", guilds := [] }

/-- The fresh user with an empty store. -/
def exFreshWorld : UserWorld :=
  { user := exFreshUser, guildStore := [], userUpdates := [] }

/-- An available guild `g1` as the gateway reports it. -/
def exGuildG1 : DiscordGuild :=
  { ID := "g1", Name := "Guild One", Icon := "", Unavailable := false }

/-- A ready snapshot of account `A` that lists the guild `g1`. -/
def exReady : Ready := { UserID := "A", Guilds := [exGuildG1] }

/-- A user connected as account `A`, with `g1` bridged; the store holds that
record, and a record of `g1` for account `B`, not bridged. -/
def exSwitchWorld : UserWorld :=
  { user :=
      { ID := "A", MXID := "@u:example.org", ManagementRoom := "", Token := "token",
        guilds := [("g1", { DiscordID := "A", GuildID := "g1", GuildName := "Guild One",
                            Bridge := true })] },
    guildStore :=
      [{ DiscordID := "A", GuildID := "g1", GuildName := "Guild One", Bridge := true },
       { DiscordID := "B", GuildID := "g1", GuildName := "Guild One", Bridge := false }],
    userUpdates := [] }

/-- A ready snapshot of account `B` that lists the guild `g1`. -/
def exSwitchReady : Ready := { UserID := "B", Guilds := [exGuildG1] }

/-- The invite fails with "already in the room"; the user has a double puppet
whose `EnsureJoined` fails. -/
def exInviteBridge : InviteBridge :=
  { customPuppet := some ⟨some ⟨.ok [], some "M_FORBIDDEN"⟩⟩,
    SendStateEvent :=
      some (GoError.HTTPError
        (some ⟨"M_FORBIDDEN", "@u:example.org is already in the room."⟩)) }

/-- A guild whose name and avatar are applied to its room `!space`. -/
def exGuild : Guild :=
  { ID := "g1", Name := "Guild One", NameSet := true, Avatar := "icon1",
    AvatarURL := { Homeserver := "example.org", FileID := "abc" }, AvatarSet := true,
    MXID := "!space" }

/-- A homeserver on which every request fails. -/
def exFailingBot : Bot :=
  { SetRoomName := some "M_UNKNOWN", uploadAvatar := (ContentURI.zero, some "M_UNKNOWN"),
    SetRoomAvatar := some "M_UNKNOWN", CreateRoom := .error "M_UNKNOWN" }

/-- A homeserver on which every request succeeds; rooms it creates are `!new`. -/
def exBot : Bot :=
  { SetRoomName := none, uploadAvatar := ({ Homeserver := "example.org", FileID := "xyz" }, none),
    SetRoomAvatar := none, CreateRoom := .ok "!new" }

/-- The guild `g1` before its room exists. -/
def exGuildWorld : GuildWorld :=
  { guild := { ID := "g1", Name := "", NameSet := false, Avatar := "",
               AvatarURL := ContentURI.zero, AvatarSet := false, MXID := "" },
    guildsByMXID := [], effects := [] }

/-- A call of `CreateMatrixRoom` answered by `exBot`. -/
def exCreateCall : CreateCall := { bot := exBot, user := "@u:example.org", meta := exGuildG1 }

/-- Three users; the user behind pointer 1 owns the management room `!m`. -/
def exManagementState : ManagementState :=
  { users := fun p =>
      if p = 1 then { exFreshUser with MXID := "@v:example.org", ManagementRoom := "!m" }
      else exFreshUser,
    managementRooms := [("!m", 1)],
    updates := [] }

/-- A registry that knows one guild, `g0`, with the room `!space0`. -/
def exRegistry : GuildRegistry :=
  { guilds := [{ Guild.New with ID := "g0", MXID := "!space0" }],
    guildsByID := [("g0", 0)],
    guildsByMXID := [("!space0", 0)],
    store := [{ Guild.New with ID := "g0", MXID := "!space0" }] }

/-- A session as `Connect` leaves it for the token `token`. -/
def exSession : Session :=
  { Token := "token", handlers := connectHandlers, Status := "online" }

/-- A user with a live session. -/
def exLiveUser : User := { exFreshUser with ID := "A", Session := some exSession }

/-- A gateway whose sessions can be made but not opened. -/
def exClosedGateway : Gateway := { New := none, Open := some "websocket: bad handshake" }

/-- A homeserver whose room creation succeeds (no error) with an empty room ID. -/
def exEmptyRoomBot : Bot := { exBot with CreateRoom := .ok "" }

/-- A call of `CreateMatrixRoom` answered by `exEmptyRoomBot`. -/
def exEmptyRoomCall : CreateCall :=
  { bot := exEmptyRoomBot, user := "@u:example.org", meta := exGuildG1 }

/-! ## Lemmas on Go maps -/

theorem GoMap.get_set {κ α : Type} [DecidableEq κ] (m : GoMap κ α) (k k' : κ) (v : α) :
    GoMap.get (GoMap.set m k v) k' = if k = k' then some v else GoMap.get m k' := by
  induction m with
  | nil => simp [GoMap.set, GoMap.get]
  | cons h t ih =>
    obtain ⟨k0, v0⟩ := h
    by_cases h0 : k0 = k
    · subst h0
      by_cases h1 : k0 = k' <;> simp [GoMap.set, GoMap.get, h1]
    · by_cases h1 : k0 = k'
      · subst h1
        have h2 : ¬ k = k0 := fun e => h0 e.symm
        simp [GoMap.set, GoMap.get, h0, h2]
      · simp [GoMap.set, GoMap.get, h0, h1, ih]

theorem GoMap.get_set_self {κ α : Type} [DecidableEq κ] (m : GoMap κ α) (k : κ) (v : α) :
    GoMap.get (GoMap.set m k v) k = some v := by
  rw [GoMap.get_set]; simp

theorem GoMap.get_set_of_ne {κ α : Type} [DecidableEq κ] (m : GoMap κ α) (k k' : κ) (v : α)
    (h : k ≠ k') : GoMap.get (GoMap.set m k v) k' = GoMap.get m k' := by
  rw [GoMap.get_set]; simp [h]

theorem GoMap.get_eq_none_of_not_mem_keys {κ α : Type} [DecidableEq κ] (m : GoMap κ α)
    (k : κ) (h : k ∉ GoMap.keys m) : GoMap.get m k = none := by
  induction m with
  | nil => rfl
  | cons e t ih =>
    obtain ⟨k0, v0⟩ := e
    simp only [GoMap.keys, List.map_cons, List.mem_cons, not_or] at h
    have h0 : ¬ k0 = k := fun e => h.1 e.symm
    simp only [GoMap.get, if_neg h0]
    exact ih h.2

theorem GoMap.get_of_mem_of_nodup {κ α : Type} [DecidableEq κ] (m : GoMap κ α)
    (k : κ) (v : α) (hn : (GoMap.keys m).Nodup) (h : (k, v) ∈ m) :
    GoMap.get m k = some v := by
  induction m with
  | nil => simp at h
  | cons e t ih =>
    obtain ⟨k0, v0⟩ := e
    simp only [GoMap.keys, List.map_cons, List.nodup_cons] at hn
    rcases List.mem_cons.mp h with heq | hmem
    · cases heq
      simp [GoMap.get]
    · have hk : k ∈ GoMap.keys t := List.mem_map.mpr ⟨(k, v), hmem, rfl⟩
      have h0 : ¬ k0 = k := fun e => hn.1 (e ▸ hk)
      simp only [GoMap.get, if_neg h0]
      exact ih hn.2 hmem

/-! ## Lemmas on the direct chat list -/

theorem mergeStep_get (br : DirectChatBridge) (method : Method) (chats : ChatMap)
    (e : String × List String) (k : String) :
    GoMap.get (mergeStep br method chats e) k =
      if e.1 = k ∧ ((br.ParsePuppetMXID e.1).isNone = true ∨
          ((GoMap.get chats e.1).isNone = true ∧ method = Method.PATCH))
      then some e.2 else GoMap.get chats k := by
  unfold mergeStep
  by_cases hp : (br.ParsePuppetMXID e.1).isNone = true
  · rw [if_pos hp, GoMap.get_set]
    by_cases hk : e.1 = k
    · rw [if_pos hk, if_pos ⟨hk, Or.inl hp⟩]
    · rw [if_neg hk, if_neg (fun h => hk h.1)]
  · rw [if_neg hp]
    by_cases hc : (GoMap.get chats e.1).isNone = true ∧ method = Method.PATCH
    · rw [if_pos hc, GoMap.get_set]
      by_cases hk : e.1 = k
      · rw [if_pos hk, if_pos ⟨hk, Or.inr hc⟩]
      · rw [if_neg hk, if_neg (fun h => hk h.1)]
    · rw [if_neg hc, if_neg]
      rintro ⟨_, h | h⟩
      · exact hp h
      · exact hc h

theorem foldl_mergeStep_get (br : DirectChatBridge) (method : Method)
    (existing chats : ChatMap) (hn : (GoMap.keys existing).Nodup) (k : String) :
    GoMap.get (existing.foldl (mergeStep br method) chats) k =
      match GoMap.get existing k with
      | some rooms =>
        if (br.ParsePuppetMXID k).isNone = true ∨
            ((GoMap.get chats k).isNone = true ∧ method = Method.PATCH)
        then some rooms else GoMap.get chats k
      | none => GoMap.get chats k := by
  induction existing generalizing chats with
  | nil => rfl
  | cons e t ih =>
    obtain ⟨k0, v0⟩ := e
    simp only [GoMap.keys, List.map_cons, List.nodup_cons] at hn
    rw [List.foldl_cons, ih _ hn.2]
    by_cases hk : k0 = k
    · subst hk
      have hnone : GoMap.get t k0 = none := GoMap.get_eq_none_of_not_mem_keys t k0 hn.1
      simp [hnone, GoMap.get, mergeStep_get]
    · have hstep : GoMap.get (mergeStep br method chats (k0, v0)) k = GoMap.get chats k := by
        rw [mergeStep_get]; simp [hk]
      simp [GoMap.get, hk, hstep]

theorem updateDirectChats_run (br : DirectChatBridge) (mxid uid : String)
    (puppet : Puppet) (intent : Intent) (chats : Option ChatMap) (existing : ChatMap)
    (hsync : br.SyncDirectChatList = true) (hasmux : br.Asmux = false)
    (hpuppet : br.GetPuppetByMXID mxid = some puppet)
    (hintent : puppet.CustomIntent = some intent)
    (hget : intent.getAccountData = Except.ok existing) :
    updateDirectChats br mxid uid chats =
      [DirectChatCall.getAccountData,
       DirectChatCall.setAccountData
         (match chats with
          | none => existing.foldl (mergeStep br Method.PUT) (getDirectChats br uid)
          | some c => existing.foldl (mergeStep br Method.PATCH) c)] := by
  cases chats <;> simp [updateDirectChats, hsync, hasmux, hpuppet, hintent, hget]

/-! ## Direct chat list: merge and replace mode -/

/-- C1: in merge mode (a non-nil `chats`, direct chat sync on, a double puppet
with a custom intent, no asmux, the existing list fetched) `updateDirectChats`
writes one list; it holds every existing entry of an owner that is not a ghost,
for every ghost of the computed list exactly the computed rooms, and every
existing ghost entry the computed list does not mention.  For existing
`{fg1: [r1], ghost1: [r2]}` and computed `{ghost1: [r3]}` the list written is
`{fg1: [r1], ghost1: [r3]}`. -/
theorem updateDirectChats_merge_mode (br : DirectChatBridge) (mxid uid : String)
    (puppet : Puppet) (intent : Intent) (chats existing : ChatMap)
    (hsync : br.SyncDirectChatList = true) (hasmux : br.Asmux = false)
    (hpuppet : br.GetPuppetByMXID mxid = some puppet)
    (hintent : puppet.CustomIntent = some intent)
    (hget : intent.getAccountData = Except.ok existing)
    (hnodup : (GoMap.keys existing).Nodup) :
    (∃ written : ChatMap,
      updateDirectChats br mxid uid (some chats) =
        [DirectChatCall.getAccountData, DirectChatCall.setAccountData written] ∧
      (∀ userID rooms, (userID, rooms) ∈ existing → br.ParsePuppetMXID userID = none →
        GoMap.get written userID = some rooms) ∧
      (∀ userID rooms, (br.ParsePuppetMXID userID).isSome = true →
        GoMap.get chats userID = some rooms → GoMap.get written userID = some rooms) ∧
      (∀ userID rooms, (userID, rooms) ∈ existing →
        (br.ParsePuppetMXID userID).isSome = true → GoMap.get chats userID = none →
        GoMap.get written userID = some rooms)) ∧
    (∃ written : ChatMap,
      updateDirectChats exBridge "@u" "7" (some [("ghost1", ["r3"])]) =
        [DirectChatCall.getAccountData, DirectChatCall.setAccountData written] ∧
      List.Perm written [("fg1", ["r1"]), ("ghost1", ["r3"])]) := by
  constructor
  · refine ⟨_, updateDirectChats_run br mxid uid puppet intent (some chats) existing
      hsync hasmux hpuppet hintent hget, ?_, ?_, ?_⟩
    · intro userID rooms hmem hparse
      show GoMap.get (existing.foldl (mergeStep br Method.PATCH) chats) userID = some rooms
      rw [foldl_mergeStep_get br _ existing chats hnodup,
        GoMap.get_of_mem_of_nodup existing userID rooms hnodup hmem]
      simp [hparse]
    · intro userID rooms hghost hchats
      show GoMap.get (existing.foldl (mergeStep br Method.PATCH) chats) userID = some rooms
      rw [foldl_mergeStep_get br _ existing chats hnodup]
      have hnot : ¬ (br.ParsePuppetMXID userID).isNone = true := by
        cases hp : br.ParsePuppetMXID userID <;> simp [hp] at hghost ⊢
      cases hex : GoMap.get existing userID with
      | none => simpa using hchats
      | some r =>
        have hc : ¬ ((GoMap.get chats userID).isNone = true ∧ Method.PATCH = Method.PATCH) := by
          simp [hchats]
        show (if _ then _ else _) = _
        rw [if_neg (fun h => h.elim hnot hc)]
        exact hchats
    · intro userID rooms hmem hghost hchats
      show GoMap.get (existing.foldl (mergeStep br Method.PATCH) chats) userID = some rooms
      rw [foldl_mergeStep_get br _ existing chats hnodup,
        GoMap.get_of_mem_of_nodup existing userID rooms hnodup hmem]
      simp [hchats]
  · exact ⟨[("ghost1", ["r3"]), ("fg1", ["r1"])], by decide, List.Perm.swap _ _ _⟩

/-- C1 (witness): the merge-mode theorem at the example bridge. -/
theorem updateDirectChats_merge_mode_witness :
    ∃ written : ChatMap,
      updateDirectChats exBridge "@u" "7" (some [("ghost1", ["r3"])]) =
        [DirectChatCall.getAccountData, DirectChatCall.setAccountData written] ∧
      GoMap.get written "fg1" = some ["r1"] ∧ GoMap.get written "ghost1" = some ["r3"] := by
  obtain ⟨⟨written, hrun, hforeign, hghost, _⟩, _⟩ :=
    updateDirectChats_merge_mode exBridge "@u" "7"
      ⟨some ⟨.ok [("fg1", ["r1"]), ("ghost1", ["r2"])], none⟩⟩
      ⟨.ok [("fg1", ["r1"]), ("ghost1", ["r2"])], none⟩
      [("ghost1", ["r3"])] [("fg1", ["r1"]), ("ghost1", ["r2"])]
      rfl rfl rfl rfl rfl (by decide)
  exact ⟨written, hrun, hforeign "fg1" ["r1"] (by decide) (by decide),
    hghost "ghost1" ["r3"] (by decide) (by decide)⟩

/-- C2 (counterexample): in replace mode, with existing `{fg1: [r1], ghost1: [r2]}`
and computed `{ghost1: [r3]}`, the list written is not `{ghost1: [r3]}`: it
still holds the foreign entry `fg1`. -/
theorem updateDirectChats_replace_mode_not_only_ghosts :
    getDirectChats exBridge "7" = [("ghost1", ["r3"])] ∧
    ¬ ∃ written : ChatMap,
        DirectChatCall.setAccountData written ∈ updateDirectChats exBridge "@u" "7" none ∧
        ∀ userID, GoMap.get written userID = GoMap.get ([("ghost1", ["r3"])] : ChatMap) userID := by
  refine ⟨by decide, ?_⟩
  rintro ⟨written, hmem, hall⟩
  have hrun : updateDirectChats exBridge "@u" "7" none =
      [DirectChatCall.getAccountData,
       DirectChatCall.setAccountData [("ghost1", ["r3"]), ("fg1", ["r1"])]] := by decide
  rw [hrun] at hmem
  simp only [List.mem_cons, List.mem_singleton, List.not_mem_nil, or_false] at hmem
  rcases hmem with h | h
  · cases h
  · cases h
    exact absurd (hall "fg1") (by decide)

/-- C2 (amended): in replace mode (`chats` nil, the others as for merge mode)
the list written holds every existing entry of an owner that is not a ghost;
for a ghost, and for every owner the existing list does not mention, it holds
exactly what `getDirectChats` computed, so an existing ghost entry survives only
if it was computed again.  For existing `{fg1: [r1], ghost1: [r2]}` and computed
`{ghost1: [r3]}` the list written is `{fg1: [r1], ghost1: [r3]}`. -/
theorem updateDirectChats_replace_mode (br : DirectChatBridge) (mxid uid : String)
    (puppet : Puppet) (intent : Intent) (existing : ChatMap)
    (hsync : br.SyncDirectChatList = true) (hasmux : br.Asmux = false)
    (hpuppet : br.GetPuppetByMXID mxid = some puppet)
    (hintent : puppet.CustomIntent = some intent)
    (hget : intent.getAccountData = Except.ok existing)
    (hnodup : (GoMap.keys existing).Nodup) :
    (∃ written : ChatMap,
      updateDirectChats br mxid uid none =
        [DirectChatCall.getAccountData, DirectChatCall.setAccountData written] ∧
      (∀ userID rooms, (userID, rooms) ∈ existing → br.ParsePuppetMXID userID = none →
        GoMap.get written userID = some rooms) ∧
      (∀ userID, (br.ParsePuppetMXID userID).isSome = true →
        GoMap.get written userID = GoMap.get (getDirectChats br uid) userID) ∧
      (∀ userID, userID ∉ GoMap.keys existing →
        GoMap.get written userID = GoMap.get (getDirectChats br uid) userID)) ∧
    (∃ written : ChatMap,
      updateDirectChats exBridge "@u" "7" none =
        [DirectChatCall.getAccountData, DirectChatCall.setAccountData written] ∧
      List.Perm written [("fg1", ["r1"]), ("ghost1", ["r3"])]) := by
  constructor
  · refine ⟨_, updateDirectChats_run br mxid uid puppet intent none existing
      hsync hasmux hpuppet hintent hget, ?_, ?_, ?_⟩
    · intro userID rooms hmem hparse
      show GoMap.get (existing.foldl (mergeStep br Method.PUT) (getDirectChats br uid)) userID
        = some rooms
      rw [foldl_mergeStep_get br _ existing _ hnodup,
        GoMap.get_of_mem_of_nodup existing userID rooms hnodup hmem]
      simp [hparse]
    · intro userID hghost
      show GoMap.get (existing.foldl (mergeStep br Method.PUT) (getDirectChats br uid)) userID
        = _
      rw [foldl_mergeStep_get br _ existing _ hnodup]
      have hnot : ¬ (br.ParsePuppetMXID userID).isNone = true := by
        cases hp : br.ParsePuppetMXID userID <;> simp [hp] at hghost ⊢
      cases hex : GoMap.get existing userID with
      | none => rfl
      | some r =>
        show (if _ then _ else _) = _
        rw [if_neg]
        rintro (h | h)
        · exact hnot h
        · exact absurd h.2 (by decide)
    · intro userID hkey
      show GoMap.get (existing.foldl (mergeStep br Method.PUT) (getDirectChats br uid)) userID
        = _
      rw [foldl_mergeStep_get br _ existing _ hnodup,
        GoMap.get_eq_none_of_not_mem_keys existing userID hkey]
  · exact ⟨[("ghost1", ["r3"]), ("fg1", ["r1"])], by decide, List.Perm.swap _ _ _⟩

/-- C2 (witness): the replace-mode theorem at the example bridge. -/
theorem updateDirectChats_replace_mode_witness :
    ∃ written : ChatMap,
      updateDirectChats exBridge "@u" "7" none =
        [DirectChatCall.getAccountData, DirectChatCall.setAccountData written] ∧
      GoMap.get written "fg1" = some ["r1"] ∧ GoMap.get written "ghost1" = some ["r3"] ∧
      GoMap.get written "ghost2" = none := by
  obtain ⟨⟨written, hrun, hforeign, hghost, _⟩, _⟩ :=
    updateDirectChats_replace_mode exBridge "@u" "7"
      ⟨some ⟨.ok [("fg1", ["r1"]), ("ghost1", ["r2"])], none⟩⟩
      ⟨.ok [("fg1", ["r1"]), ("ghost1", ["r2"])], none⟩
      [("fg1", ["r1"]), ("ghost1", ["r2"])]
      rfl rfl rfl rfl rfl (by decide)
  refine ⟨written, hrun, hforeign "fg1" ["r1"] (by decide) (by decide), ?_, ?_⟩
  · rw [hghost "ghost1" (by decide)]; decide
  · rw [hghost "ghost2" (by decide)]; decide

/-! ## Lemmas on the guild cache -/

theorem foldl_readyStep_current (uid : String) (gs : List DiscordGuild)
    (st : GoMap String Database.Guild × List String) :
    (gs.foldl (readyStep uid) st).2 = st.2 ++ gs.map (fun g => g.ID) := by
  induction gs generalizing st with
  | nil => simp
  | cons g t ih =>
    rw [List.foldl_cons, ih]
    have h : (readyStep uid st g).2 = st.2 ++ [g.ID] := by
      unfold readyStep
      cases GoMap.get st.1 g.ID <;> rfl
    rw [h]
    simp

theorem foldl_set_get_congr (l : List Database.Guild) (m m' : GoMap String Database.Guild)
    (k : String) (h : GoMap.get m k = GoMap.get m' k) :
    GoMap.get (l.foldl (fun m guild => GoMap.set m guild.GuildID guild) m) k =
      GoMap.get (l.foldl (fun m guild => GoMap.set m guild.GuildID guild) m') k := by
  induction l generalizing m m' with
  | nil => exact h
  | cons g t ih =>
    rw [List.foldl_cons, List.foldl_cons]
    apply ih
    rw [GoMap.get_set, GoMap.get_set, h]

theorem foldl_set_filter_get_of_mem (l : List Database.Guild) (m : GoMap String Database.Guild)
    (keep : List String) (k : String) (hk : k ∈ keep) :
    GoMap.get ((l.filter (fun g => decide (g.GuildID ∈ keep))).foldl
        (fun m guild => GoMap.set m guild.GuildID guild) m) k =
      GoMap.get (l.foldl (fun m guild => GoMap.set m guild.GuildID guild) m) k := by
  induction l generalizing m with
  | nil => rfl
  | cons g t ih =>
    by_cases hg : g.GuildID ∈ keep
    · rw [List.filter_cons_of_pos (by simpa using hg), List.foldl_cons, List.foldl_cons]
      exact ih _
    · rw [List.filter_cons_of_neg (by simpa using hg), List.foldl_cons, ih]
      apply foldl_set_get_congr
      have hne : g.GuildID ≠ k := fun e => hg (e ▸ hk)
      rw [GoMap.get_set_of_ne _ _ _ _ hne]

theorem foldl_set_filter_get_of_not_mem (l : List Database.Guild)
    (m : GoMap String Database.Guild) (keep : List String) (k : String) (hk : k ∉ keep) :
    GoMap.get ((l.filter (fun g => decide (g.GuildID ∈ keep))).foldl
        (fun m guild => GoMap.set m guild.GuildID guild) m) k = GoMap.get m k := by
  induction l generalizing m with
  | nil => rfl
  | cons g t ih =>
    by_cases hg : g.GuildID ∈ keep
    · rw [List.filter_cons_of_pos (by simpa using hg), List.foldl_cons, ih]
      have hne : g.GuildID ≠ k := fun e => hk (e ▸ hg)
      rw [GoMap.get_set_of_ne _ _ _ _ hne]
    · rw [List.filter_cons_of_neg (by simpa using hg)]
      exact ih _

theorem getAll_prune (db : Database.GuildStore) (uid : String) (keep : List String) :
    Database.GuildStore.GetAll (Database.GuildStore.Prune db uid keep) uid =
      (Database.GuildStore.GetAll db uid).filter (fun g => decide (g.GuildID ∈ keep)) := by
  unfold Database.GuildStore.GetAll Database.GuildStore.Prune
  induction db with
  | nil => rfl
  | cons g t ih =>
    by_cases h1 : g.DiscordID = uid <;> by_cases h2 : g.GuildID ∈ keep <;>
      simp [List.filter_cons, h1, h2] at ih ⊢ <;> exact ih

/-- What the cache holds after `readyHandler`: for a guild of the snapshot what
a load from the store gives for the account of the snapshot, nothing else. -/
theorem readyHandler_cache (w : UserWorld) (r : Ready) (k : String) :
    GoMap.get (readyHandler w r).user.guilds k =
      if k ∈ r.Guilds.map (fun g => g.ID) then
        GoMap.get (loadGuilds { w.user with ID := r.UserID } w.guildStore).guilds k
      else none := by
  simp only [readyHandler, loadGuilds, foldl_readyStep_current, List.nil_append, getAll_prune]
  by_cases hk : k ∈ r.Guilds.map (fun g => g.ID)
  · rw [if_pos hk]
    exact foldl_set_filter_get_of_mem _ _ _ k hk
  · rw [if_neg hk]
    exact foldl_set_filter_get_of_not_mem _ _ _ k hk

theorem upsert_mem (db : Database.GuildStore) (g : Database.Guild) :
    g ∈ Database.GuildStore.Upsert db g := by
  induction db with
  | nil => simp [Database.GuildStore.Upsert]
  | cons h t ih =>
    unfold Database.GuildStore.Upsert
    split_ifs
    · exact List.mem_cons_self _ _
    · exact List.mem_cons_of_mem _ ih

/-- The sibling `guildCreateHandler` writes the record it caches to the store. -/
theorem guildCreateHandler_persists (w : UserWorld) (g : DiscordGuild) :
    ∃ record, GoMap.get (guildCreateHandler w g).user.guilds g.ID = some record ∧
      record ∈ (guildCreateHandler w g).guildStore := by
  unfold guildCreateHandler
  cases GoMap.get w.user.guilds g.ID with
  | none => exact ⟨_, GoMap.get_set_self _ _ _, upsert_mem _ _⟩
  | some guild => exact ⟨_, GoMap.get_set_self _ _ _, upsert_mem _ _⟩

/-! ## Ready snapshot -/

/-- C3 (the code at the failing input): a fresh user with an empty store gets a
ready snapshot that lists the guild `g1`; after `readyHandler` the guild cache
has no entry for `g1` (and the store has no record of it), so the key set of
the cache is not the guild set of the snapshot. -/
theorem readyHandler_loses_snapshot_guild :
    "g1" ∈ exReady.Guilds.map (fun g => g.ID) ∧
    GoMap.get (readyHandler exFreshWorld exReady).user.guilds "g1" = none ∧
    (readyHandler exFreshWorld exReady).user.guilds = [] ∧
    (readyHandler exFreshWorld exReady).guildStore = [] := by
  decide

/-- C4 (counterexample): the user is connected as account `A` with `g1` bridged
and gets the ready snapshot of account `B`, which lists `g1`; the store holds a
record of `g1` for `B` that is not bridged.  After `readyHandler` the cache
entry of `g1` has `Bridge = false`: the flag it had before is not kept. -/
theorem readyHandler_bridge_flag_not_kept :
    ¬ ∀ (gid : String) (before : Database.Guild),
        GoMap.get exSwitchWorld.user.guilds gid = some before →
        gid ∈ exSwitchReady.Guilds.map (fun g => g.ID) →
        ∃ after, GoMap.get (readyHandler exSwitchWorld exSwitchReady).user.guilds gid
            = some after ∧ after.Bridge = before.Bridge := by
  intro h
  obtain ⟨after, hafter, hflag⟩ :=
    h "g1" { DiscordID := "A", GuildID := "g1", GuildName := "Guild One", Bridge := true }
      (by decide) (by decide)
  have heval : GoMap.get (readyHandler exSwitchWorld exSwitchReady).user.guilds "g1" =
      some { DiscordID := "B", GuildID := "g1", GuildName := "Guild One", Bridge := false } := by
    decide
  rw [heval] at hafter
  cases hafter
  exact absurd hflag (by decide)

/-- C4 (amended): for a guild that is in the cache before the ready snapshot and
is listed in the snapshot, if the record that a load from the store gives for
the account of the snapshot has the Bridge flag of the cache entry, then after
`readyHandler` the guild has a cache entry and its Bridge flag is the one it had
before, whatever the snapshot says about the guild. -/
theorem readyHandler_keeps_stored_bridge_flag (w : UserWorld) (r : Ready) (gid : String)
    (before stored : Database.Guild)
    (hcache : GoMap.get w.user.guilds gid = some before)
    (hsnap : gid ∈ r.Guilds.map (fun g => g.ID))
    (hstored : GoMap.get (loadGuilds { w.user with ID := r.UserID } w.guildStore).guilds gid
      = some stored)
    (hagree : stored.Bridge = before.Bridge) :
    ∃ after, GoMap.get (readyHandler w r).user.guilds gid = some after ∧
      after.Bridge = before.Bridge := by
  have _ := hcache
  refine ⟨stored, ?_, hagree⟩
  rw [readyHandler_cache, if_pos hsnap, hstored]

/-- C4 (witness): account `A` gets its own ready snapshot again, with another
name for `g1`; the Bridge flag of `g1` stays `true`. -/
theorem readyHandler_keeps_stored_bridge_flag_witness :
    ∃ after,
      GoMap.get (readyHandler exSwitchWorld
          { UserID := "A",
            Guilds := [{ ID := "g1", Name := "Renamed", Icon := "x", Unavailable := false }] }
        ).user.guilds "g1" = some after ∧
      after.Bridge = true :=
  readyHandler_keeps_stored_bridge_flag exSwitchWorld
    { UserID := "A",
      Guilds := [{ ID := "g1", Name := "Renamed", Icon := "x", Unavailable := false }] }
    "g1"
    { DiscordID := "A", GuildID := "g1", GuildName := "Guild One", Bridge := true }
    { DiscordID := "A", GuildID := "g1", GuildName := "Guild One", Bridge := true }
    (by decide) (by decide) (by decide) rfl

/-! ## Name and avatar reconciliation -/

/-- C5: `UpdateName(name)` on a guild that has this name with `NameSet` true,
and `UpdateAvatar(iconID)` on a guild that has this avatar with `AvatarSet`
true, return false, have no effect outside the guild (no room rename, avatar
upload or room-avatar set) and leave the guild as it is. -/
theorem update_noop_when_applied (bot : Bot) (g1 g2 : Guild) (name iconID : String)
    (hname : g1.Name = name) (hnameSet : g1.NameSet = true)
    (havatar : g2.Avatar = iconID) (havatarSet : g2.AvatarSet = true) :
    g1.UpdateName bot name = (false, g1, []) ∧
    g2.UpdateAvatar bot iconID = (false, g2, []) := by
  constructor
  · simp [Guild.UpdateName, hname, hnameSet]
  · simp [Guild.UpdateAvatar, havatar, havatarSet]

/-- C5 (witness): the example guild, its own name and avatar, a homeserver on
which every request would fail. -/
theorem update_noop_when_applied_witness :
    exGuild.UpdateName exFailingBot "Guild One" = (false, exGuild, []) ∧
    exGuild.UpdateAvatar exFailingBot "icon1" = (false, exGuild, []) :=
  update_noop_when_applied exFailingBot exGuild exGuild "Guild One" "icon1" rfl rfl rfl rfl

theorem updateName_of_push (bot : Bot) (g : Guild) (name : String) (hroom : g.MXID ≠ "")
    (hpush : ¬ (g.Name = name ∧ g.NameSet = true)) :
    g.UpdateName bot name =
      (true, { g with Name := name, NameSet := bot.SetRoomName.isNone },
        [Effect.SetRoomName g.MXID name]) := by
  unfold Guild.UpdateName
  rw [if_neg hpush]
  cases h : bot.SetRoomName <;> simp [hroom]

theorem updateAvatar_of_push (bot : Bot) (g : Guild) (iconID : String) (hroom : g.MXID ≠ "")
    (hpush : ¬ (g.Avatar = iconID ∧ g.AvatarSet = true)) :
    g.UpdateAvatar bot iconID =
      if iconID ≠ "" ∧ bot.uploadAvatar.2.isSome = true then
        (true, { g with AvatarSet := false, Avatar := iconID, AvatarURL := bot.uploadAvatar.1 },
          [Effect.uploadAvatar (EndpointGuildIcon g.ID iconID)])
      else if iconID ≠ "" then
        (true, { g with AvatarSet := bot.SetRoomAvatar.isNone, Avatar := iconID,
                        AvatarURL := bot.uploadAvatar.1 },
          [Effect.uploadAvatar (EndpointGuildIcon g.ID iconID),
           Effect.SetRoomAvatar g.MXID bot.uploadAvatar.1])
      else
        (true, { g with AvatarSet := bot.SetRoomAvatar.isNone, Avatar := iconID,
                        AvatarURL := ContentURI.zero },
          [Effect.SetRoomAvatar g.MXID ContentURI.zero]) := by
  unfold Guild.UpdateAvatar
  rw [if_neg hpush]
  by_cases hi : iconID = ""
  · cases h : bot.SetRoomAvatar <;> simp [hroom, hi]
  · cases h : bot.SetRoomAvatar <;> cases h2 : bot.uploadAvatar.2 <;> simp [hroom, hi, h2]

theorem updateAvatar_after_failure (bot : Bot) (g : Guild) (iconID : String)
    (hroom : g.MXID ≠ "") (hpush : ¬ (g.Avatar = iconID ∧ g.AvatarSet = true))
    (hfail : (iconID ≠ "" ∧ bot.uploadAvatar.2 ≠ none) ∨ bot.SetRoomAvatar ≠ none) :
    (g.UpdateAvatar bot iconID).2.1.MXID = g.MXID ∧
    (g.UpdateAvatar bot iconID).2.1.ID = g.ID ∧
    (g.UpdateAvatar bot iconID).2.1.AvatarSet = false := by
  rw [updateAvatar_of_push bot g iconID hroom hpush]
  by_cases hi : iconID = ""
  · rcases hfail with h | h
    · exact absurd hi h.1
    · cases h' : bot.SetRoomAvatar with
      | none => exact absurd h' h
      | some e => simp [hi]
  · cases h2 : bot.uploadAvatar.2 with
    | some e => simp [hi]
    | none =>
      rcases hfail with h | h
      · exact absurd h2 h.2
      · cases h' : bot.SetRoomAvatar with
        | none => exact absurd h' h
        | some e => simp [hi]

theorem updateAvatar_retry (bot : Bot) (g : Guild) (iconID : String)
    (hroom : g.MXID ≠ "") (hset : g.AvatarSet = false) :
    (g.UpdateAvatar bot iconID).1 = true ∧
    (g.UpdateAvatar bot iconID).2.2.head? =
      some (if iconID ≠ "" then Effect.uploadAvatar (EndpointGuildIcon g.ID iconID)
            else Effect.SetRoomAvatar g.MXID ContentURI.zero) ∧
    ((g.UpdateAvatar bot iconID).2.1.AvatarSet = true ↔
      ((iconID = "" ∨ bot.uploadAvatar.2 = none) ∧ bot.SetRoomAvatar = none)) := by
  rw [updateAvatar_of_push bot g iconID hroom (by simp [hset])]
  by_cases hi : iconID = ""
  · cases h : bot.SetRoomAvatar <;> simp [hi]
  · cases h : bot.SetRoomAvatar <;> cases h2 : bot.uploadAvatar.2 <;> simp [hi]

/-- C6: for a guild with a room, if `UpdateName(name)` pushes and the rename
fails, `NameSet` is false afterwards and the next `UpdateName(name)` returns
true and sends the rename again; if `UpdateAvatar(iconID)` pushes and fails at
the upload or at the room-avatar set, `AvatarSet` is false afterwards and the
next `UpdateAvatar(iconID)` returns true and starts the push again (with the
upload, or with the room-avatar set when the icon is empty).  After a call
that returns true the flag is set only if the push went out and succeeded. -/
theorem update_retries_after_failed_push (bot1 bot2 : Bot) (g1 g2 : Guild)
    (name iconID : String)
    (hroom1 : g1.MXID ≠ "") (hroom2 : g2.MXID ≠ "")
    (hpush1 : ¬ (g1.Name = name ∧ g1.NameSet = true))
    (hfail1 : bot1.SetRoomName ≠ none)
    (hpush2 : ¬ (g2.Avatar = iconID ∧ g2.AvatarSet = true))
    (hfail2 : (iconID ≠ "" ∧ bot1.uploadAvatar.2 ≠ none) ∨ bot1.SetRoomAvatar ≠ none) :
    ((g1.UpdateName bot1 name).2.1.NameSet = false ∧
      ((g1.UpdateName bot1 name).2.1.UpdateName bot2 name).1 = true ∧
      ((g1.UpdateName bot1 name).2.1.UpdateName bot2 name).2.2 =
        [Effect.SetRoomName g1.MXID name] ∧
      (((g1.UpdateName bot1 name).2.1.UpdateName bot2 name).2.1.NameSet = true ↔
        bot2.SetRoomName = none)) ∧
    ((g2.UpdateAvatar bot1 iconID).2.1.AvatarSet = false ∧
      ((g2.UpdateAvatar bot1 iconID).2.1.UpdateAvatar bot2 iconID).1 = true ∧
      ((g2.UpdateAvatar bot1 iconID).2.1.UpdateAvatar bot2 iconID).2.2.head? =
        some (if iconID ≠ "" then Effect.uploadAvatar (EndpointGuildIcon g2.ID iconID)
              else Effect.SetRoomAvatar g2.MXID ContentURI.zero) ∧
      (((g2.UpdateAvatar bot1 iconID).2.1.UpdateAvatar bot2 iconID).2.1.AvatarSet = true ↔
        ((iconID = "" ∨ bot2.uploadAvatar.2 = none) ∧ bot2.SetRoomAvatar = none))) ∧
    (∀ (bot : Bot) (g : Guild) (n : String), (g.UpdateName bot n).1 = true →
      (g.UpdateName bot n).2.1.NameSet = true →
      bot.SetRoomName = none ∧ (g.UpdateName bot n).2.2 = [Effect.SetRoomName g.MXID n]) ∧
    (∀ (bot : Bot) (g : Guild) (icon : String), (g.UpdateAvatar bot icon).1 = true →
      (g.UpdateAvatar bot icon).2.1.AvatarSet = true →
      bot.SetRoomAvatar = none ∧ (icon = "" ∨ bot.uploadAvatar.2 = none) ∧
      Effect.SetRoomAvatar g.MXID (g.UpdateAvatar bot icon).2.1.AvatarURL ∈
        (g.UpdateAvatar bot icon).2.2) := by
  refine ⟨?_, ?_, ?_, ?_⟩
  · rw [updateName_of_push bot1 g1 name hroom1 hpush1]
    have hnone : bot1.SetRoomName.isNone = false := by
      cases h : bot1.SetRoomName with
      | none => exact absurd h hfail1
      | some e => rfl
    rw [hnone]
    have hretry := updateName_of_push bot2 { g1 with Name := name, NameSet := false } name
      hroom1 (by simp)
    dsimp only at hretry ⊢
    rw [hretry]
    cases h : bot2.SetRoomName <;> simp
  · obtain ⟨hm, hid, hs⟩ := updateAvatar_after_failure bot1 g2 iconID hroom2 hpush2 hfail2
    have hretry := updateAvatar_retry bot2 (g2.UpdateAvatar bot1 iconID).2.1 iconID
      (hm ▸ hroom2) hs
    rw [hm, hid] at hretry
    exact ⟨hs, hretry⟩
  · intro bot g n hret hset
    unfold Guild.UpdateName at hret hset ⊢
    by_cases hnoop : g.Name = n ∧ g.NameSet = true
    · simp [hnoop] at hret
    · by_cases hroom : g.MXID = ""
      · simp [hnoop, hroom] at hset
      · cases h : bot.SetRoomName with
        | none => simp [hnoop, hroom, h]
        | some e => simp [hnoop, hroom, h] at hset
  · intro bot g icon hret hset
    by_cases hnoop : g.Avatar = icon ∧ g.AvatarSet = true
    · simp [Guild.UpdateAvatar, hnoop] at hret
    · by_cases hroom : g.MXID = ""
      · exfalso
        unfold Guild.UpdateAvatar at hset
        rw [if_neg hnoop] at hset
        by_cases hi : icon = "" <;> cases h2 : bot.uploadAvatar.2 <;>
          simp [hroom, hi, h2] at hset
      · rw [updateAvatar_of_push bot g icon hroom hnoop] at hset ⊢
        by_cases hi : icon = ""
        · cases h : bot.SetRoomAvatar <;> simp [hi, h] at hset ⊢
        · cases h : bot.SetRoomAvatar <;> cases h2 : bot.uploadAvatar.2 <;>
            simp [hi, h, h2] at hset ⊢

/-- C6 (witness): the example guild gets a new name and a new avatar while
every request fails, then the same ones again. -/
theorem update_retries_after_failed_push_witness :
    (exGuild.UpdateName exFailingBot "Renamed").2.1.NameSet = false ∧
    ((exGuild.UpdateName exFailingBot "Renamed").2.1.UpdateName exBot "Renamed").2.2 =
      [Effect.SetRoomName "!space" "Renamed"] ∧
    (exGuild.UpdateAvatar exFailingBot "icon2").2.1.AvatarSet = false ∧
    ((exGuild.UpdateAvatar exFailingBot "icon2").2.1.UpdateAvatar exBot "icon2").1 = true := by
  obtain ⟨⟨h1, _, h3, _⟩, ⟨h5, h6, _, _⟩, _, _⟩ :=
    update_retries_after_failed_push exFailingBot exBot exGuild exGuild "Renamed" "icon2"
      (by decide) (by decide) (by decide) (by decide) (by decide) (by decide)
  exact ⟨h1, h3, h5, h6⟩

/-! ## Bridging filter -/

/-- C7: `bridgeMessage(guildID)` is true exactly when the guild ID is empty or
the guild cache holds the guild with `Bridge` true; `messageDeleteHandler`
leaves the user (and so the guild cache) as it is; when `bridgeMessage` of the
event's guild is true it appends the event to the queue of the portal
`(ChannelID, u.ID)` and touches no other queue, and when it is false every
queue is as before. -/
theorem messageDeleteHandler_bridging_filter (u : User) (q : PortalQueues)
    (m : MessageDelete) :
    (∀ guildID, bridgeMessage u guildID = true ↔
      (guildID = "" ∨
        ∃ guild, GoMap.get u.guilds guildID = some guild ∧ guild.Bridge = true)) ∧
    (messageDeleteHandler u q m).1 = u ∧
    (bridgeMessage u m.GuildID = true →
      PortalQueues.queue (messageDeleteHandler u q m).2 ⟨m.ChannelID, u.ID⟩ =
        PortalQueues.queue q ⟨m.ChannelID, u.ID⟩ ++ [⟨m, u.MXID⟩] ∧
      ∀ key : PortalKey, key ≠ ⟨m.ChannelID, u.ID⟩ →
        PortalQueues.queue (messageDeleteHandler u q m).2 key = PortalQueues.queue q key) ∧
    (bridgeMessage u m.GuildID = false → (messageDeleteHandler u q m).2 = q) := by
  refine ⟨?_, ?_, ?_, ?_⟩
  · intro guildID
    unfold bridgeMessage
    by_cases hg : guildID = ""
    · simp [hg]
    · cases hc : GoMap.get u.guilds guildID with
      | none => simp [hg]
      | some guild => cases hb : guild.Bridge <;> simp [hg, hb]
  · unfold messageDeleteHandler
    split_ifs <;> rfl
  · intro hb
    unfold messageDeleteHandler
    simp only [hb, Bool.not_true, Bool.false_eq_true, if_false]
    constructor
    · simp [PortalQueues.queue, GoMap.get_set_self]
    · intro key hkey
      simp only [PortalQueues.queue]
      rw [GoMap.get_set_of_ne _ _ _ _ (Ne.symm hkey)]
  · intro hb
    unfold messageDeleteHandler
    simp [hb]

/-- C7 (at an input): a delete event for the guild `g1`, which the user after
the account switch has cached with `Bridge` false, is dropped; one without a
guild reaches the queue of its portal. -/
theorem messageDeleteHandler_bridging_filter_witness :
    (messageDeleteHandler (readyHandler exSwitchWorld exSwitchReady).user []
      { ID := "m1", ChannelID := "c1", GuildID := "g1" }).2 = [] ∧
    PortalQueues.queue
      (messageDeleteHandler (readyHandler exSwitchWorld exSwitchReady).user []
        { ID := "m1", ChannelID := "c1", GuildID := "" }).2 ⟨"c1", "B"⟩ =
      [⟨{ ID := "m1", ChannelID := "c1", GuildID := "" }, "@u:example.org"⟩] :=
  ⟨(messageDeleteHandler_bridging_filter (readyHandler exSwitchWorld exSwitchReady).user []
      { ID := "m1", ChannelID := "c1", GuildID := "g1" }).2.2.2 (by decide),
   ((messageDeleteHandler_bridging_filter (readyHandler exSwitchWorld exSwitchReady).user []
      { ID := "m1", ChannelID := "c1", GuildID := "" }).2.2.1 (by decide)).1⟩

/-! ## Space creation -/

theorem countCreateRoom_append (a b : List Effect) :
    countCreateRoom (a ++ b) = countCreateRoom a + countCreateRoom b := by
  simp [countCreateRoom, List.filter_append]

theorem countCreateRoom_updateName (bot : Bot) (g : Guild) (n : String) :
    countCreateRoom (g.UpdateName bot n).2.2 = 0 := by
  by_cases h1 : g.Name = n ∧ g.NameSet = true
  · simp [Guild.UpdateName, h1, countCreateRoom]
  · by_cases h2 : g.MXID = ""
    · unfold Guild.UpdateName
      rw [if_neg h1]
      simp [h2, countCreateRoom]
    · rw [updateName_of_push bot g n h2 h1]
      simp [countCreateRoom, Effect.isCreateRoom]

theorem countCreateRoom_updateAvatar (bot : Bot) (g : Guild) (icon : String) :
    countCreateRoom (g.UpdateAvatar bot icon).2.2 = 0 := by
  by_cases h1 : g.Avatar = icon ∧ g.AvatarSet = true
  · simp [Guild.UpdateAvatar, h1, countCreateRoom]
  · by_cases h2 : g.MXID = ""
    · unfold Guild.UpdateAvatar
      rw [if_neg h1]
      by_cases hi : icon = "" <;> cases hu : bot.uploadAvatar.2 <;>
        simp [h2, hi, hu, countCreateRoom, Effect.isCreateRoom]
    · rw [updateAvatar_of_push bot g icon h2 h1]
      split_ifs <;> simp [countCreateRoom, Effect.isCreateRoom]

theorem countCreateRoom_updateBridgeInfo (g : Guild) :
    countCreateRoom g.UpdateBridgeInfo = 0 := by
  unfold Guild.UpdateBridgeInfo
  split_ifs <;> simp [countCreateRoom, Effect.isCreateRoom]

theorem countCreateRoom_updateInfo (bot : Bot) (g : Guild) (info : DiscordGuild) :
    countCreateRoom (g.UpdateInfo bot info).2 = 0 := by
  unfold Guild.UpdateInfo
  by_cases hu : info.Unavailable = true
  · rw [if_pos hu]
    rfl
  · rw [if_neg hu]
    dsimp only
    split_ifs
    · simp only [countCreateRoom_append, countCreateRoom_updateName,
        countCreateRoom_updateAvatar, countCreateRoom_updateBridgeInfo]
      simp [countCreateRoom, Effect.isCreateRoom]
    · simp only [countCreateRoom_append, countCreateRoom_updateName,
        countCreateRoom_updateAvatar]

theorem createMatrixRoom_of_room (federate : Bool) (w : GuildWorld) (c : CreateCall)
    (h : w.guild.MXID ≠ "") : Guild.CreateMatrixRoom federate w c = (none, w) := by
  unfold Guild.CreateMatrixRoom
  rw [if_pos h]

theorem createMatrixRoom_first (federate : Bool) (w : GuildWorld) (c : CreateCall)
    (roomID : String) (hempty : w.guild.MXID = "")
    (hok : c.bot.CreateRoom = Except.ok roomID) :
    (Guild.CreateMatrixRoom federate w c).1 = none ∧
    (Guild.CreateMatrixRoom federate w c).2.guild.MXID = roomID ∧
    countCreateRoom (Guild.CreateMatrixRoom federate w c).2.effects =
      countCreateRoom w.effects + 1 := by
  unfold Guild.CreateMatrixRoom
  simp only [hempty, ne_eq, not_true_eq_false, if_false, hok]
  refine ⟨trivial, trivial, ?_⟩
  simp only [countCreateRoom_append, countCreateRoom_updateInfo]
  simp [countCreateRoom, Effect.isCreateRoom]

theorem createRun_of_room (federate : Bool) (w : GuildWorld) (cs : List CreateCall)
    (h : w.guild.MXID ≠ "") : ∀ w' ∈ createRun federate w cs, w' = w := by
  induction cs with
  | nil => intro w' hw; simp [createRun] at hw
  | cons c t ih =>
    intro w' hw
    simp only [createRun, createMatrixRoom_of_room federate w c h, List.mem_cons] at hw
    rcases hw with hw | hw
    · exact hw
    · exact ih w' hw

theorem createRun_length (federate : Bool) (w : GuildWorld) (cs : List CreateCall) :
    (createRun federate w cs).length = cs.length := by
  induction cs generalizing w with
  | nil => rfl
  | cons c t ih => simp [createRun, ih]

/-- C8 (counterexample): the room-creation request succeeds (its error is nil)
but returns an empty room ID; the guild still has no room after the first call,
so the second call sends a second room-creation request. -/
theorem createMatrixRoom_empty_room_id_creates_twice :
    exGuildWorld.guild.MXID = "" ∧
    exEmptyRoomCall.bot.CreateRoom = Except.ok "" ∧
    (createRun false exGuildWorld [exEmptyRoomCall, exEmptyRoomCall]).map
      (fun w => (w.guild.MXID, countCreateRoom w.effects)) = [("", 1), ("", 2)] :=
  ⟨rfl, rfl, by decide⟩

/-- C8 (amended): for a guild without a room, any run of one or more
`CreateMatrixRoom` calls, one after another, whose room-creation request
succeeds and returns a room ID that is not empty: after every call the guild
holds that room ID and exactly one room-creation request has been sent since
the start; the first call returns nil.  A call on a guild that has a room
returns nil and changes nothing (no effect at all). -/
theorem createMatrixRoom_creates_once (federate : Bool) (w : GuildWorld) (c : CreateCall)
    (cs : List CreateCall) (roomID : String)
    (hempty : w.guild.MXID = "")
    (hok : c.bot.CreateRoom = Except.ok roomID) (hroom : roomID ≠ "") :
    (createRun federate w (c :: cs)).length = (c :: cs).length ∧
    (∀ w' ∈ createRun federate w (c :: cs),
      w'.guild.MXID = roomID ∧
      countCreateRoom w'.effects = countCreateRoom w.effects + 1) ∧
    (Guild.CreateMatrixRoom federate w c).1 = none ∧
    (∀ (w0 : GuildWorld) (c0 : CreateCall), w0.guild.MXID ≠ "" →
      Guild.CreateMatrixRoom federate w0 c0 = (none, w0)) := by
  obtain ⟨hnil, hid, hcount⟩ := createMatrixRoom_first federate w c roomID hempty hok
  refine ⟨createRun_length _ _ _, ?_, hnil, fun w0 c0 h => createMatrixRoom_of_room _ w0 c0 h⟩
  intro w' hw
  simp only [createRun, List.mem_cons] at hw
  have hfirst : w' = (Guild.CreateMatrixRoom federate w c).2 := by
    rcases hw with hw | hw
    · exact hw
    · exact createRun_of_room federate _ cs (by rw [hid]; exact hroom) w' hw
  rw [hfirst]
  exact ⟨hid, hcount⟩

/-- C8 (witness): three calls for the example guild; after each of them the
room is `!new` and one room has been requested. -/
theorem createMatrixRoom_creates_once_witness :
    (createRun false exGuildWorld [exCreateCall, exCreateCall, exCreateCall]).length = 3 ∧
    ∀ w' ∈ createRun false exGuildWorld [exCreateCall, exCreateCall, exCreateCall],
      w'.guild.MXID = "!new" ∧ countCreateRoom w'.effects = 1 :=
  ⟨(createMatrixRoom_creates_once false exGuildWorld exCreateCall [exCreateCall, exCreateCall]
      "!new" rfl rfl (by decide)).1,
   (createMatrixRoom_creates_once false exGuildWorld exCreateCall [exCreateCall, exCreateCall]
      "!new" rfl rfl (by decide)).2.1⟩

/-! ## Invites -/

/-- C9 (counterexample): the invite fails with an HTTP error whose text contains
"is already in the room", the user has a double puppet and its `EnsureJoined`
fails: `ensureInvited` returns false. -/
theorem ensureInvited_already_in_room_returns_false :
    exInviteBridge.SendStateEvent =
      some (GoError.HTTPError
        (some ⟨"M_FORBIDDEN", "@u:example.org is already in the room."⟩)) ∧
    stringsContains "@u:example.org is already in the room." "is already in the room" = true ∧
    (ensureInvited exInviteBridge exFreshUser [] "!room" false).1 = false := by
  decide

/-- C9 (amended): when the invite fails with an HTTP error whose response error
text contains "is already in the room", the state store afterwards records the
user as joined in the room, and `ensureInvited` returns true exactly when no
custom intent of a double puppet is bound for the user or that intent's
`EnsureJoined` succeeds. -/
theorem ensureInvited_already_in_room (br : InviteBridge) (u : User) (store : StateStore)
    (roomID : String) (isDirect : Bool) (resp : RespError)
    (herr : br.SendStateEvent = some (GoError.HTTPError (some resp)))
    (htext : stringsContains resp.Err "is already in the room" = true) :
    GoMap.get (ensureInvited br u store roomID isDirect).2.1 (roomID, u.MXID) =
      some Membership.join ∧
    ((ensureInvited br u store roomID isDirect).1 = true ↔
      ∀ puppet intent, br.customPuppet = some puppet → puppet.CustomIntent = some intent →
        intent.EnsureJoined = none) := by
  have hin : alreadyInRoom br.SendStateEvent = true := by
    rw [herr]
    exact htext
  unfold ensureInvited
  simp only [hin, if_true]
  cases hp : br.customPuppet with
  | none => simp [GoMap.get_set_self]
  | some puppet =>
    cases hi : puppet.CustomIntent with
    | none =>
      simp only [hi, GoMap.get_set_self, true_and, true_iff]
      intro p i hpe hci
      cases hpe
      rw [hi] at hci
      cases hci
    | some intent =>
      cases hj : intent.EnsureJoined with
      | none =>
        simp only [hi, hj, GoMap.get_set_self, true_and, true_iff]
        intro p i hpe hci
        cases hpe
        rw [hi] at hci
        cases hci
        exact hj
      | some e => simp [GoMap.get_set_self, hi, hj]

/-- C9 (witness): the same failing invite for a user without a double puppet:
the membership is recorded and the result is true. -/
theorem ensureInvited_already_in_room_witness :
    GoMap.get
      (ensureInvited { exInviteBridge with customPuppet := none } exFreshUser [] "!room" false).2.1
      ("!room", "@u:example.org") = some Membership.join ∧
    (ensureInvited { exInviteBridge with customPuppet := none } exFreshUser [] "!room" false).1
      = true := by
  obtain ⟨hstore, hret⟩ :=
    ensureInvited_already_in_room { exInviteBridge with customPuppet := none } exFreshUser []
      "!room" false ⟨"M_FORBIDDEN", "@u:example.org is already in the room."⟩ rfl (by decide)
  exact ⟨hstore, hret.mpr (fun puppet intent h => by cases h)⟩

/-! ## Management rooms -/

/-- C10: after `SetManagementRoom(roomID)` on the user `u` the index maps
`roomID` to `u` and `u.ManagementRoom` is `roomID`; if the index mapped `roomID`
to another user `v` before, `v.ManagementRoom` is empty afterwards, `v` is
otherwise as before, and `Update` has been called on `v` and then on `u`, each
with its new row; `Update` is called on `u` in every case; every user other
than `u` and the previous owner is as before, and the index is as before for
every other room. -/
theorem setManagementRoom_takeover (st : ManagementState) (u : UserPtr) (roomID : String) :
    GoMap.get (SetManagementRoom st u roomID).managementRooms roomID = some u ∧
    ((SetManagementRoom st u roomID).users u).ManagementRoom = roomID ∧
    (∀ v, GoMap.get st.managementRooms roomID = some v → v ≠ u →
      ((SetManagementRoom st u roomID).users v).ManagementRoom = "" ∧
      (SetManagementRoom st u roomID).users v = { st.users v with ManagementRoom := "" } ∧
      (SetManagementRoom st u roomID).updates =
        st.updates ++ [(v, (SetManagementRoom st u roomID).users v),
                       (u, (SetManagementRoom st u roomID).users u)]) ∧
    (u, (SetManagementRoom st u roomID).users u) ∈ (SetManagementRoom st u roomID).updates ∧
    (∀ p, p ≠ u → GoMap.get st.managementRooms roomID ≠ some p →
      (SetManagementRoom st u roomID).users p = st.users p) ∧
    (∀ room, room ≠ roomID →
      GoMap.get (SetManagementRoom st u roomID).managementRooms room =
        GoMap.get st.managementRooms room) := by
  cases hex : GoMap.get st.managementRooms roomID with
  | none =>
    refine ⟨?_, ?_, ?_, ?_, ?_, ?_⟩
    · simp [SetManagementRoom, hex, setRoomField, GoMap.get_set_self]
    · simp [SetManagementRoom, hex, setRoomField]
    · intro v hv
      cases hv
    · simp [SetManagementRoom, hex]
    · intro p hp _
      simp [SetManagementRoom, hex, setRoomField, hp]
    · intro room hroom
      simp only [SetManagementRoom, hex, setRoomField, if_true]
      rw [GoMap.get_set_of_ne _ _ _ _ (Ne.symm hroom)]
  | some existing =>
    refine ⟨?_, ?_, ?_, ?_, ?_, ?_⟩
    · simp [SetManagementRoom, hex, setRoomField, GoMap.get_set_self]
    · simp [SetManagementRoom, hex, setRoomField]
    · intro v hv hvu
      cases hv
      simp [SetManagementRoom, hex, setRoomField, hvu]
    · simp [SetManagementRoom, hex]
    · intro p hp hpe
      have hpe' : p ≠ existing := fun e => hpe (by rw [e])
      simp [SetManagementRoom, hex, setRoomField, hp, hpe']
    · intro room hroom
      simp only [SetManagementRoom, hex, setRoomField, if_true]
      rw [GoMap.get_set_of_ne _ _ _ _ (Ne.symm hroom)]

/-- C10 (at an input): the user behind pointer 2 takes the management room
`!m` over from the user behind pointer 1; pointer 3 is not touched. -/
theorem setManagementRoom_takeover_witness :
    ((SetManagementRoom exManagementState 2 "!m").users 1).ManagementRoom = "" ∧
    ((SetManagementRoom exManagementState 2 "!m").users 2).ManagementRoom = "!m" ∧
    (SetManagementRoom exManagementState 2 "!m").users 3 = exManagementState.users 3 ∧
    (SetManagementRoom exManagementState 2 "!m").updates =
      [(1, (SetManagementRoom exManagementState 2 "!m").users 1),
       (2, (SetManagementRoom exManagementState 2 "!m").users 2)] := by
  obtain ⟨_, hu, hv, _, hother, _⟩ := setManagementRoom_takeover exManagementState 2 "!m"
  obtain ⟨hv1, _, hv3⟩ := hv 1 (by decide) (by decide)
  exact ⟨hv1, hu, hother 3 (by decide) (by decide), hv3⟩

/-! ## Guild registry -/

theorem getGuildByID_create (br : GuildRegistry) (id : String)
    (hid : id ≠ "") (hindex : GoMap.get br.guildsByID id = none)
    (hstore : br.GetByID id = none) :
    GetGuildByID br id true =
      (some br.guilds.length,
        { guilds := br.guilds ++ [{ Guild.New with ID := id }],
          guildsByID := GoMap.set br.guildsByID id br.guilds.length,
          guildsByMXID := br.guildsByMXID,
          store := br.store ++ [{ Guild.New with ID := id }] }) := by
  simp [GetGuildByID, loadGuild, hindex, hstore, hid, GuildRegistry.Insert, Guild.New]

/-- C11: for a non-empty guild ID that is in neither the index `guildsByID` nor
the store, `GetGuildByID(id, true)` makes one new guild entity for a new record
with that ID, inserts that one record into the store and enters the entity in
`guildsByID`; a second `GetGuildByID(id, true)` returns the same entity and
leaves the registry and the store as they are.  `GetGuildByID(id, false)` for
such an ID returns nil and leaves the registry and the store as they are. -/
theorem getGuildByID_get_or_create (br : GuildRegistry) (id : String)
    (hid : id ≠ "") (hindex : GoMap.get br.guildsByID id = none)
    (hstore : br.GetByID id = none) :
    (GetGuildByID br id true).1 = some br.guilds.length ∧
    (GetGuildByID br id true).2.guilds = br.guilds ++ [{ Guild.New with ID := id }] ∧
    (GetGuildByID br id true).2.store = br.store ++ [{ Guild.New with ID := id }] ∧
    GoMap.get (GetGuildByID br id true).2.guildsByID id = some br.guilds.length ∧
    GetGuildByID (GetGuildByID br id true).2 id true =
      (some br.guilds.length, (GetGuildByID br id true).2) ∧
    GetGuildByID br id false = (none, br) := by
  rw [getGuildByID_create br id hid hindex hstore]
  refine ⟨rfl, rfl, rfl, GoMap.get_set_self _ _ _, ?_, ?_⟩
  · simp [GetGuildByID, GoMap.get_set_self]
  · simp [GetGuildByID, loadGuild, hindex, hstore]

/-- C11 (witness): the guild `g1` is new to the example registry, which has one
entity; both calls return the entity 1 and the store gets one record. -/
theorem getGuildByID_get_or_create_witness :
    (GetGuildByID exRegistry "g1" true).1 = some 1 ∧
    (GetGuildByID (GetGuildByID exRegistry "g1" true).2 "g1" true).1 = some 1 ∧
    (GetGuildByID (GetGuildByID exRegistry "g1" true).2 "g1" true).2.store =
      exRegistry.store ++ [{ Guild.New with ID := "g1" }] ∧
    GetGuildByID exRegistry "g1" false = (none, exRegistry) := by
  obtain ⟨h1, _, h3, _, h5, h6⟩ :=
    getGuildByID_get_or_create exRegistry "g1" (by decide) (by decide) (by decide)
  refine ⟨h1, ?_, ?_, h6⟩
  · rw [h5]
    rfl
  · rw [h5]
    exact h3

/-! ## Sessions -/

/-- C12: `Logout` on a user with a live session whose close succeeds returns
nil, leaves `Session` nil and `Token` empty (the other fields as they were) and
ends with `Update` of that row, after the close of the session; the error of
`SwitchCustomMXID("", "")` has no part in the outcome.  The close is attempted
in every run with a live session.  `Logout` on a user without a session
returns `ErrNotLoggedIn`, makes no call and changes nothing. -/
theorem logout_clears_session (br : LogoutBridge) (u : User) (session : Session)
    (hlive : u.Session = some session) (hclose : br.Close = none) :
    (Logout br u).1 = none ∧
    (Logout br u).2.1.Session = none ∧
    (Logout br u).2.1.Token = "" ∧
    (Logout br u).2.1 = { u with Session := none, Token := "" } ∧
    (Logout br u).2.2 =
      (if br.CustomMXID ≠ "" then [SessionCall.SwitchCustomMXID "" ""] else []) ++
        [SessionCall.Close session, SessionCall.Update (Logout br u).2.1] ∧
    (∀ err : Option String, Logout { br with SwitchCustomMXID := err } u = Logout br u) ∧
    (∀ br' : LogoutBridge, SessionCall.Close session ∈ (Logout br' u).2.2) ∧
    (∀ (br' : LogoutBridge) (u' : User), u'.Session = none →
      Logout br' u' = (some ErrNotLoggedIn, u', [])) := by
  refine ⟨?_, ?_, ?_, ?_, ?_, ?_, ?_, ?_⟩
  · simp [Logout, hlive, hclose]
  · simp [Logout, hlive, hclose]
  · simp [Logout, hlive, hclose]
  · simp [Logout, hlive, hclose]
  · simp [Logout, hlive, hclose]
  · intro err
    simp [Logout, hlive, hclose]
  · intro br'
    cases hc : br'.Close <;> simp [Logout, hlive, hc]
  · intro br' u' hnil
    simp [Logout, hnil]

/-- C12 (witness): the user with a live session logs out; the puppet has a
custom Matrix ID and clearing it fails. -/
theorem logout_clears_session_witness :
    (Logout { CustomMXID := "@u:example.org", SwitchCustomMXID := some "M_UNKNOWN",
              Close := none } exLiveUser).1 = none ∧
    (Logout { CustomMXID := "@u:example.org", SwitchCustomMXID := some "M_UNKNOWN",
              Close := none } exLiveUser).2.1.Session = none ∧
    (Logout { CustomMXID := "@u:example.org", SwitchCustomMXID := some "M_UNKNOWN",
              Close := none } exLiveUser).2.1.Token = "" := by
  obtain ⟨h1, h2, h3, _⟩ :=
    logout_clears_session
      { CustomMXID := "@u:example.org", SwitchCustomMXID := some "M_UNKNOWN", Close := none }
      exLiveUser exSession rfl rfl
  exact ⟨h1, h2, h3⟩

/-- C13 (counterexample): a user without a session and with a token connects;
the session is made but opening the gateway connection fails.  `Connect`
returns the error, and `Session` holds the new session, so `Connected()`
reports true. -/
theorem connect_open_failure_keeps_session :
    exFreshUser.Session = none ∧
    (Connect exClosedGateway exFreshUser).1 = some "websocket: bad handshake" ∧
    (Connect exClosedGateway exFreshUser).2.1.Session = some exSession ∧
    Connected (Connect exClosedGateway exFreshUser).2.1 = true := by
  decide

/-- C13 (amended): for a user without a session, if `Connect` fails because the
token is empty or because the session cannot be made, it returns an error, the
user is as before, `Session` is still nil and `Connected()` reports false.  If
it fails in opening the gateway connection, it returns that error while
`Session` holds the session just made, and `Connected()` reports true. -/
theorem connect_failure_before_open (gw : Gateway) (u : User)
    (hnil : u.Session = none) (hcause : u.Token = "" ∨ gw.New ≠ none) :
    (Connect gw u).1 ≠ none ∧
    (Connect gw u).2.1 = u ∧
    (Connect gw u).2.1.Session = none ∧
    Connected (Connect gw u).2.1 = false ∧
    (∀ (gw' : Gateway) (u' : User) (err : String),
      u'.Token ≠ "" → gw'.New = none → gw'.Open = some err →
      (Connect gw' u').1 = some err ∧
      (Connect gw' u').2.1.Session =
        some { Token := u'.Token, handlers := connectHandlers, Status := "online" } ∧
      Connected (Connect gw' u').2.1 = true) := by
  have hsame : (Connect gw u).1 ≠ none ∧ (Connect gw u).2.1 = u := by
    unfold Connect
    by_cases ht : u.Token = ""
    · simp [ht]
    · cases hn : gw.New with
      | none =>
        rcases hcause with h | h
        · exact absurd h ht
        · exact absurd hn h
      | some err => simp [ht]
  refine ⟨hsame.1, hsame.2, ?_, ?_, ?_⟩
  · rw [hsame.2]
    exact hnil
  · rw [hsame.2]
    simp [Connected, hnil]
  · intro gw' u' err ht hn ho
    simp [Connect, Connected, ht, hn, ho]

/-- C13 (witness): a user without a token, and a user whose session cannot be
made, stay without a session. -/
theorem connect_failure_before_open_witness :
    Connected (Connect exClosedGateway { exFreshUser with Token := "" }).2.1 = false ∧
    Connected (Connect { New := some "invalid token", Open := none } exFreshUser).2.1 = false :=
  ⟨(connect_failure_before_open exClosedGateway { exFreshUser with Token := "" } rfl
      (Or.inl rfl)).2.2.2.1,
   (connect_failure_before_open { New := some "invalid token", Open := none } exFreshUser rfl
      (Or.inr (by decide))).2.2.2.1⟩

end MautrixDiscord
